import Mathlib

/-!
Shallow embedding of the session-negotiation and call-signaling core of the
solidjs-webrtc application (src/src/App.tsx), together with theorems settling
the specification claims about it.  Pure application logic is translated
function-by-function from the source; platform primitives (JSON.parse, the
RTCPeerConnection signaling-state rules, data-channel readiness) are modelled
explicitly and documented at their definitions.
-/

set_option maxHeartbeats 1000000

/-- Platform model: JSON values as produced by JSON.parse.  Numeric literals
keep their source lexeme (the application never inspects numbers). -/
inductive Json where
  | null : Json
  | bool (b : Bool) : Json
  | num (lexeme : String) : Json
  | str (s : String) : Json
  | arr (elems : List Json) : Json
  | obj (fields : List (String × Json)) : Json

/-- Left brace character (written via its code point). -/
def lbrace : Char := Char.ofNat 123

/-- Right brace character (written via its code point). -/
def rbrace : Char := Char.ofNat 125

/-- JSON insignificant whitespace. -/
def isJsonWs (c : Char) : Bool :=
  c == ' ' || c == '\t' || c == '\n' || c == '\r'

/-- Drop leading JSON whitespace. -/
def skipWs (cs : List Char) : List Char :=
  match cs with
  | c :: rest => if isJsonWs c then skipWs rest else cs
  | [] => cs

/-- Value of a hexadecimal digit, by code point. -/
def hexVal (c : Char) : Option Nat :=
  let n := c.toNat
  if 48 ≤ n && n ≤ 57 then some (n - 48)
  else if 97 ≤ n && n ≤ 102 then some (n - 87)
  else if 65 ≤ n && n ≤ 70 then some (n - 55)
  else none

/-- Single-character JSON string escapes. -/
def escChar (e : Char) : Option Char :=
  if e == '"' then some '"'
  else if e == '\\' then some '\\'
  else if e == '/' then some '/'
  else if e == 'b' then some (Char.ofNat 8)
  else if e == 'f' then some (Char.ofNat 12)
  else if e == 'n' then some '\n'
  else if e == 'r' then some '\r'
  else if e == 't' then some '\t'
  else none

/-- Parse the body of a JSON string after its opening quote; returns the
decoded string and the rest of the input after the closing quote. -/
def parseStringBody : List Char → Option (String × List Char)
  | [] => none
  | '"' :: rest => some ("", rest)
  | '\\' :: 'u' :: h1 :: h2 :: h3 :: h4 :: rest =>
      match hexVal h1, hexVal h2, hexVal h3, hexVal h4 with
      | some a, some b, some c, some d =>
          (parseStringBody rest).map
            (fun p => (String.mk (Char.ofNat (((a * 16 + b) * 16 + c) * 16 + d) :: p.1.data), p.2))
      | _, _, _, _ => none
  | '\\' :: e :: rest =>
      match escChar e with
      | some ch => (parseStringBody rest).map (fun p => (String.mk (ch :: p.1.data), p.2))
      | none => none
  | c :: rest =>
      if c.toNat < 32 then none
      else (parseStringBody rest).map (fun p => (String.mk (c :: p.1.data), p.2))

/-- Longest prefix of decimal digits. -/
def digitSpan (cs : List Char) : List Char × List Char :=
  match cs with
  | c :: rest =>
      if c.isDigit then
        let q := digitSpan rest
        (c :: q.fst, q.snd)
      else ([], cs)
  | [] => ([], cs)

/-- Fractional part of a JSON number (possibly absent). -/
def parseFrac : List Char → Option (List Char × List Char)
  | '.' :: cs =>
      match digitSpan cs with
      | ([], _) => none
      | (d, r) => some ('.' :: d, r)
  | r => some ([], r)

/-- Exponent part of a JSON number (possibly absent). -/
def parseExp : List Char → Option (List Char × List Char)
  | [] => some ([], [])
  | c :: cs =>
      if c == 'e' || c == 'E' then
        let p : List Char × List Char :=
          match cs with
          | s :: cs2 => if s == '+' || s == '-' then ([s], cs2) else ([], s :: cs2)
          | [] => ([], [])
        match digitSpan p.2 with
        | ([], _) => none
        | (d, r) => some (c :: (p.1 ++ d), r)
      else some ([], c :: cs)

/-- Parse a JSON number, returning its lexeme. -/
def parseNumber (input : List Char) : Option (String × List Char) :=
  let sp : List Char × List Char :=
    match input with
    | '-' :: cs => (['-'], cs)
    | _ => ([], input)
  match sp.2 with
  | [] => none
  | c :: cs =>
      if c == '0' then
        match parseFrac cs with
        | none => none
        | some (f, r1) =>
            match parseExp r1 with
            | none => none
            | some (e, r2) => some (String.mk (sp.1 ++ [c] ++ f ++ e), r2)
      else if c.isDigit then
        let d := digitSpan cs
        match parseFrac d.2 with
        | none => none
        | some (f, r1) =>
            match parseExp r1 with
            | none => none
            | some (e, r2) => some (String.mk (sp.1 ++ (c :: d.1) ++ f ++ e), r2)
      else none

mutual

/-- Platform model: recursive-descent JSON value parser (fuel-indexed). -/
def parseValue : Nat → List Char → Option (Json × List Char)
  | 0, _ => none
  | fuel + 1, input =>
      match skipWs input with
      | [] => none
      | c :: rest =>
          if c == '"' then
            (parseStringBody rest).map (fun p => (Json.str p.1, p.2))
          else if c == lbrace then
            match skipWs rest with
            | [] => none
            | c2 :: r2 =>
                if c2 == rbrace then some (Json.obj [], r2)
                else (parseMembers fuel (c2 :: r2)).map (fun p => (Json.obj p.1, p.2))
          else if c == '[' then
            match skipWs rest with
            | [] => none
            | c2 :: r2 =>
                if c2 == ']' then some (Json.arr [], r2)
                else (parseElems fuel (c2 :: r2)).map (fun p => (Json.arr p.1, p.2))
          else if c == 't' then
            match rest with
            | 'r' :: 'u' :: 'e' :: r => some (Json.bool true, r)
            | _ => none
          else if c == 'f' then
            match rest with
            | 'a' :: 'l' :: 's' :: 'e' :: r => some (Json.bool false, r)
            | _ => none
          else if c == 'n' then
            match rest with
            | 'u' :: 'l' :: 'l' :: r => some (Json.null, r)
            | _ => none
          else
            (parseNumber (c :: rest)).map (fun p => (Json.num p.1, p.2))

/-- Members of a JSON object after its opening brace (non-empty case). -/
def parseMembers : Nat → List Char → Option (List (String × Json) × List Char)
  | 0, _ => none
  | fuel + 1, input =>
      match skipWs input with
      | '"' :: rest =>
          match parseStringBody rest with
          | none => none
          | some (k, r1) =>
              match skipWs r1 with
              | ':' :: r2 =>
                  match parseValue fuel r2 with
                  | none => none
                  | some (v, r3) =>
                      match skipWs r3 with
                      | ',' :: r4 =>
                          (parseMembers fuel r4).map (fun p => ((k, v) :: p.1, p.2))
                      | c5 :: r5 =>
                          if c5 == rbrace then some ([(k, v)], r5) else none
                      | [] => none
              | _ => none
      | _ => none

/-- Elements of a JSON array after its opening bracket (non-empty case). -/
def parseElems : Nat → List Char → Option (List Json × List Char)
  | 0, _ => none
  | fuel + 1, input =>
      match parseValue fuel input with
      | none => none
      | some (v, r) =>
          match skipWs r with
          | ',' :: r2 => (parseElems fuel r2).map (fun p => (v :: p.1, p.2))
          | ']' :: r2 => some ([v], r2)
          | _ => none

end

/-- Platform model of JSON.parse: total decoder returning none where the
platform call would throw. -/
def jsonParse (s : String) : Option Json :=
  match parseValue (s.length + 1) s.data with
  | some (v, rest) => if skipWs rest = [] then some v else none
  | none => none

/-- Property access `j[k]` on a parsed value, as JavaScript performs it:
defined only for objects (last duplicate key wins, as in JSON.parse),
undefined (none) otherwise. -/
def getField (j : Json) (k : String) : Option Json :=
  match j with
  | Json.obj fields => fields.foldl (fun acc kv => if kv.1 = k then some kv.2 else acc) none
  | _ => none

example : jsonParse "null" = some Json.null := by rfl
example : jsonParse "hello" = none := by rfl
example : jsonParse " \x7b\"a\":1, \"b\":[true,\"x\"]\x7d " =
    some (Json.obj [("a", Json.num "1"), ("b", Json.arr [Json.bool true, Json.str "x"])]) := by rfl
example : getField (Json.obj [("type", Json.str "chat")]) "type" = some (Json.str "chat") := by rfl

/-- Value of the `connectionStatus` signal. -/
inductive ConnStatus where
  | disconnected : ConnStatus
  | connecting : ConnStatus
  | connected : ConnStatus
deriving DecidableEq, Repr

/-- Value of the `callStatus` signal. -/
inductive CallStatus where
  | idle : CallStatus
  | calling : CallStatus
  | ringing : CallStatus
  | connecting : CallStatus
  | active : CallStatus
  | ending : CallStatus
deriving DecidableEq, Repr

/-- Platform model: readyState of an RTCDataChannel. -/
inductive ChannelState where
  | connecting : ChannelState
  | open : ChannelState
  | closing : ChannelState
  | closed : ChannelState
deriving DecidableEq, Repr

/-- Platform model: connectionState of an RTCPeerConnection. -/
inductive PCConnState where
  | new : PCConnState
  | connecting : PCConnState
  | connected : PCConnState
  | disconnected : PCConnState
  | failed : PCConnState
  | closed : PCConnState
deriving DecidableEq, Repr

/-- Platform model: signalingState of an RTCPeerConnection, as far as the
application exercises it. -/
inductive SigState where
  | stable : SigState
  | haveLocalOffer : SigState
  | haveRemoteOffer : SigState
deriving DecidableEq, Repr

/-- Platform model: an RTCDataChannel handle (identity plus readiness). -/
structure Channel where
  id : Nat
  readyState : ChannelState
deriving DecidableEq, Repr

/-- Platform model: an RTCRtpSender; `track` is the attached track id, none
after removeTrack. -/
structure Sender where
  track : Option Nat
deriving DecidableEq, Repr

/-- Platform model: an RTCPeerConnection handle with the state the
application observes. -/
structure PeerConn where
  connectionState : PCConnState
  signalingState : SigState
  senders : List Sender
deriving DecidableEq, Repr

/-- Platform model: a MediaStreamTrack of the local capture stream. -/
structure MediaTrack where
  id : Nat
deriving DecidableEq, Repr

/-- One entry of the `chatMessages` signal; `text` is the JavaScript value
stored in the `text` field (none models undefined). -/
structure ChatEntry where
  text : Option Json
  isOwn : Bool

/-- The application-level signaling messages of src/src/App.tsx
(type CallMessage).  The sdp payloads carry whatever JavaScript value the
sender placed there. -/
inductive CallMessage where
  | callRequest (sender : String) : CallMessage
  | callAccept (sender : String) : CallMessage
  | callDecline (sender : String) : CallMessage
  | callOffer (sdp : Option Json) : CallMessage
  | callAnswer (sdp : Option Json) : CallMessage
  | callEnd (sender : String) : CallMessage
  | chat (message : String) : CallMessage

/-- The component state of App: its createSignal signals plus the
module-level `pc` and `dataChannel` handles. -/
structure AppState where
  localSDP : String
  remoteSDP : String
  showSDPModal : Bool
  log : List String
  connectionStatus : ConnStatus
  showChatWindow : Bool
  chatMessages : List ChatEntry
  messageInput : String
  localStream : Option (List MediaTrack)
  remoteStream : Option Nat
  isInCall : Bool
  callStatus : CallStatus
  incomingCall : Option (Option Json)
  isAudioMuted : Bool
  isVideoMuted : Bool
  pc : Option PeerConn
  dataChannel : Option Channel

/-- Observable actions a step performs besides updating the state: frames
actually sent on the control channel, track stop and sender removal calls,
creation of a peer connection, and asynchronous continuations spawned (the
parts of async handlers after their first await). -/
inductive Effect where
  | sentFrame (m : CallMessage) : Effect
  | trackStop (id : Nat) : Effect
  | senderRemove : Effect
  | pcCreated : Effect
  | spawnStartMedia : Effect
  | spawnHandleOffer (sdp : Option Json) : Effect
  | spawnHandleAnswer (sdp : Option Json) : Effect

/-- The appendLog helper (console output elided). -/
def appendLog (s : AppState) (m : String) : AppState :=
  { s with log := s.log ++ [m] }

/-- The AppState with its log emptied; used to state which steps change
nothing but the diagnostic log. -/
def AppState.sansLog (s : AppState) : AppState :=
  { s with log := [] }

/-- The frames among a step's effects that were sent on the wire. -/
def sentFrames (effs : List Effect) : List CallMessage :=
  effs.filterMap (fun e =>
    match e with
    | Effect.sentFrame m => some m
    | _ => none)

/-- Whether a data channel handle exists and is open (the
`!dataChannel || dataChannel.readyState !== 'open'` guard, negated). -/
def channelOpen (dc : Option Channel) : Bool :=
  match dc with
  | some ch => ch.readyState == ChannelState.open
  | none => false

/-- Embeds sendCallMessage (App.tsx lines 150-162): sends the JSON-encoded
message only when the data channel exists and is open, otherwise logs and
returns. -/
def sendCallMessage (s : AppState) (m : CallMessage) : AppState × List Effect :=
  if channelOpen s.dataChannel then
    (appendLog s "Sent message", [Effect.sentFrame m])
  else
    (appendLog s "Cannot send call message - data channel not ready", [])

/-- Embeds sendChatMessage (App.tsx lines 164-177). -/
def sendChatMessage (s : AppState) (text : String) : AppState × List Effect :=
  if channelOpen s.dataChannel then
    (appendLog s ("Sent chat message: " ++ text), [Effect.sentFrame (CallMessage.chat text)])
  else
    (appendLog s "Cannot send chat message - data channel not ready", [])

/-- Embeds createPeerConnectionWithStatus (App.tsx lines 70-122): returns the
existing connection if one exists, otherwise creates a fresh one (handlers
are modelled as the standalone event functions below). -/
def createPeerConnectionWithStatus (s : AppState) : AppState × List Effect :=
  match s.pc with
  | some _ => (s, [])
  | none =>
      let p : PeerConn :=
        { connectionState := PCConnState.new, signalingState := SigState.stable, senders := [] }
      (appendLog { s with pc := some p } "RTCPeerConnection created", [Effect.pcCreated])

/-- Embeds the `pc.ondatachannel` handler (App.tsx lines 79-86): the received
channel is installed as the module-level dataChannel unconditionally. -/
def onIncomingChannel (s : AppState) (ch : Channel) : AppState × List Effect :=
  ({ (appendLog s "Data channel received") with dataChannel := some ch }, [])

/-- Embeds handleIncomingCall (App.tsx lines 179-183). -/
def handleIncomingCall (s : AppState) (sender : Option Json) : AppState × List Effect :=
  ({ (appendLog s "Incoming call") with
     incomingCall := some sender
     callStatus := CallStatus.ringing }, [])

/-- Embeds the synchronous prefix of handleCallAccept together with the
synchronous prefix of startMediaAndSendOffer it invokes (App.tsx lines
185-227): up to the first await, the status moves to connecting and the
media/offer continuation is spawned. -/
def handleCallAccept (s : AppState) : AppState × List Effect :=
  let s := appendLog s "Call accepted by remote peer"
  if s.callStatus = CallStatus.calling then
    let s := { s with callStatus := CallStatus.connecting }
    let s := appendLog s "Getting media for call..."
    let s := appendLog s "Requesting media permissions..."
    (s, [Effect.spawnStartMedia])
  else
    (s, [])

/-- Embeds handleCallDecline (App.tsx lines 229-233). -/
def handleCallDecline (s : AppState) : AppState × List Effect :=
  ({ (appendLog s "Call declined by remote peer") with
     callStatus := CallStatus.idle
     isInCall := false }, [])

/-- Embeds the synchronous prefix of handleCallOffer (App.tsx lines 235-272):
it logs and suspends at the media-permission await, leaving the rest as a
spawned continuation. -/
def handleCallOffer (s : AppState) (sdp : Option Json) : AppState × List Effect :=
  let s := appendLog s "Received call offer"
  let s := appendLog s "Requesting media permissions..."
  (s, [Effect.spawnHandleOffer sdp])

/-- Embeds the synchronous prefix of handleCallAnswer (App.tsx lines
274-293): without a peer connection it logs and returns; otherwise it
suspends at the setRemoteDescription await. -/
def handleCallAnswer (s : AppState) (sdp : Option Json) : AppState × List Effect :=
  let s := appendLog s "Received call answer"
  match s.pc with
  | none => (appendLog s "No peer connection for call answer", [])
  | some _ => (s, [Effect.spawnHandleAnswer sdp])

/-- The sender transform removeTrack performs in endCall's loop. -/
def removeIfTracked (sd : Sender) : Sender :=
  if sd.track.isSome then { track := none } else sd

/-- Embeds endCall (App.tsx lines 440-474).  The body contains no await, so
it runs as one synchronous step; nothing in the modelled body throws, so the
catch branch is dead. -/
def endCall (s : AppState) : AppState × List Effect :=
  let s := { s with callStatus := CallStatus.ending }
  let s := appendLog s "Ending call..."
  let r1 := if s.isInCall then sendCallMessage s (CallMessage.callEnd "me") else (s, [])
  let r2 : AppState × List Effect :=
    match r1.1.localStream with
    | some tracks =>
        ({ r1.1 with localStream := none }, tracks.map (fun t => Effect.trackStop t.id))
    | none => (r1.1, [])
  let s2 := { r2.1 with
              remoteStream := none
              isInCall := false
              callStatus := CallStatus.idle
              incomingCall := none
              isAudioMuted := false
              isVideoMuted := false }
  let r3 : AppState × List Effect :=
    match s2.pc with
    | some p =>
        let s3 := { s2 with pc := some { p with senders := p.senders.map removeIfTracked } }
        (appendLog s3 "Media tracks removed",
         (p.senders.filter (fun sd => sd.track.isSome)).map (fun _ => Effect.senderRemove))
    | none => (s2, [])
  (appendLog r3.1 "Call ended", r1.2 ++ r2.2 ++ r3.2)

/-- Embeds handleCallEnd (App.tsx lines 295-298). -/
def handleCallEnd (s : AppState) : AppState × List Effect :=
  endCall (appendLog s "Call ended by remote peer")

/-- Embeds the `pc.onconnectionstatechange` handler (App.tsx lines 88-103),
fired after the platform updates the connection state to `st`. -/
def connectionStateEvent (s : AppState) (st : PCConnState) : AppState × List Effect :=
  let s := { s with pc := s.pc.map (fun p => { p with connectionState := st }) }
  let s := appendLog s "Connection state changed"
  if st = PCConnState.connected then
    ({ (appendLog s "Connection established") with
       showSDPModal := false
       connectionStatus := ConnStatus.connected
       showChatWindow := true
       localSDP := ""
       remoteSDP := "" }, [])
  else if st = PCConnState.disconnected ∨ st = PCConnState.failed then
    let s := { s with connectionStatus := ConnStatus.disconnected }
    if s.isInCall then endCall s else (s, [])
  else
    (s, [])

/-- Embeds startCall (App.tsx lines 391-414). -/
def startCall (s : AppState) : AppState × List Effect :=
  if s.connectionStatus ≠ ConnStatus.connected then
    (appendLog s "Cannot start call - no active connection", [])
  else if s.isInCall ∨ s.callStatus ≠ CallStatus.idle then
    (appendLog s "Call already in progress or not ready", [])
  else
    let s := { s with callStatus := CallStatus.calling }
    let s := appendLog s "Initiating call..."
    let r := sendCallMessage s (CallMessage.callRequest "me")
    (appendLog r.1 "Call request sent", r.2)

/-- Platform model: the code points String.prototype.trim strips (ECMA-262
WhiteSpace and LineTerminator): TAB, LF, VT, FF, CR, SP, NBSP, the Ogham
space mark, the Unicode space separators U+2000-U+200A, LS, PS, the narrow
no-break and medium mathematical spaces, the ideographic space and ZWNBSP. -/
def isJsWs (c : Char) : Bool :=
  let n := c.toNat
  (9 ≤ n && n ≤ 13) || n == 32 || n == 160 || n == 5760 ||
    (8192 ≤ n && n ≤ 8202) || n == 8232 || n == 8233 || n == 8239 ||
    n == 8287 || n == 12288 || n == 65279

/-- Drop leading JavaScript whitespace. -/
def dropJsWs (cs : List Char) : List Char :=
  match cs with
  | c :: rest => if isJsWs c then dropJsWs rest else cs
  | [] => cs

/-- Platform model of String.prototype.trim: strip leading and trailing
ECMA-262 whitespace. -/
def jsTrim (s : String) : String :=
  String.mk ((dropJsWs (dropJsWs s.data).reverse).reverse)

example : jsTrim " " = "" := by rfl
example : jsTrim "  hi   " = "hi" := by rfl

/-- Embeds sendMessage (App.tsx lines 338-348). -/
def sendMessage (s : AppState) : AppState × List Effect :=
  let msg := jsTrim s.messageInput
  if msg = "" then (s, [])
  else
    let s := { s with
               chatMessages := s.chatMessages ++ [⟨some (Json.str msg), true⟩]
               messageInput := "" }
    sendChatMessage s msg

/-- The switch body of onDataMessage (App.tsx lines 304-328), dispatching on
the decoded value's `type` property; only reached for non-null values, since
property access on null throws before the switch. -/
def dispatchFrame (s : AppState) (j : Json) : AppState × List Effect :=
  match getField j "type" with
  | some (Json.str "call-request") => handleIncomingCall s (getField j "from")
  | some (Json.str "call-accept") => handleCallAccept s
  | some (Json.str "call-decline") => handleCallDecline s
  | some (Json.str "call-offer") => handleCallOffer s (getField j "sdp")
  | some (Json.str "call-answer") => handleCallAnswer s (getField j "sdp")
  | some (Json.str "call-end") => handleCallEnd s
  | _ =>
      ({ (appendLog s "Received chat message") with
         chatMessages := s.chatMessages ++ [⟨getField j "message", false⟩] }, [])

/-- Embeds onDataMessage (App.tsx lines 300-334): JSON.parse the frame and
dispatch on its `type` property.  A frame that fails to parse — and equally
a frame decoding to JSON null, on which the `message.type` access throws a
TypeError — lands in the catch, which appends the raw text as an inbound
chat entry. -/
def onDataMessage (s : AppState) (msg : String) : AppState × List Effect :=
  match jsonParse msg with
  | none =>
      ({ (appendLog s "Received message") with
         chatMessages := s.chatMessages ++ [⟨some (Json.str msg), false⟩] }, [])
  | some Json.null =>
      ({ (appendLog s "Received message") with
         chatMessages := s.chatMessages ++ [⟨some (Json.str msg), false⟩] }, [])
  | some j => dispatchFrame s j

/-- Platform model of String.prototype.includes, used by the m=video check. -/
def includesSubstr (hay needle : String) : Bool :=
  (hay.splitOn needle).length != 1

/-- Platform model: RTCPeerConnection.setRemoteDescription as the
application exercises it.  A description applies when its `type` is
`offer` in a stable (or re-offered) session, or `answer` while a local
offer is outstanding; any other input makes the platform call throw,
modelled as none. -/
def trySetRemoteDescription (p : PeerConn) (j : Json) : Option PeerConn :=
  match getField j "type" with
  | some (Json.str "offer") =>
      if p.signalingState = SigState.stable ∨ p.signalingState = SigState.haveRemoteOffer then
        some { p with signalingState := SigState.haveRemoteOffer }
      else none
  | some (Json.str "answer") =>
      if p.signalingState = SigState.haveLocalOffer then
        some { p with signalingState := SigState.stable }
      else none
  | _ => none

/-- The finalized local description produced by answer generation, as an
opaque marker (the SDP text itself is platform-generated). -/
def answerDescription : String := "finalized-answer-description"

/-- Embeds createAnswerFromRemote (App.tsx lines 495-511), run to completion
as one sequential step (single-threaded, gathering assumed to settle); the
Bool result records whether a platform call threw, which the caller's catch
observes.  State mutated before the throw is kept, as in the source. -/
def createAnswerFromRemote (s : AppState) (remote : Json) : (AppState × List Effect) × Bool :=
  let r := createPeerConnectionWithStatus s
  let vc : Option AppState :=
    match getField remote "sdp" with
    | some (Json.str t) =>
        some (if includesSubstr t "m=video" then appendLog r.1 "Video call detected" else r.1)
    | some Json.null => some r.1
    | none => some r.1
    | some _ => none
  match vc with
  | none => ((r.1, r.2), true)
  | some s1 =>
      match s1.pc with
      | none => ((s1, r.2), true)
      | some p =>
          match trySetRemoteDescription p remote with
          | none => ((s1, r.2), true)
          | some p2 =>
              let s2 := { s1 with pc := some { p2 with signalingState := SigState.stable } }
              let s2 := { s2 with localSDP := answerDescription }
              let s2 := appendLog s2 "Answer created"
              (({ s2 with showSDPModal := true }, r.2), false)

/-- Embeds applyRemoteSDP (App.tsx lines 513-533): parse the pasted remote
description, dispatch on its type; any platform throw is caught and logged.
A description decoding to JSON null throws a TypeError at the
`parsed.type` template literal before anything else happens, so it lands in
the catch with no state change. -/
def applyRemoteSDP (s : AppState) : AppState × List Effect :=
  match jsonParse s.remoteSDP with
  | none => (appendLog s "Invalid remote SDP", [])
  | some Json.null => (appendLog s "Invalid remote SDP", [])
  | some parsed =>
      let s := appendLog s "Processing remote SDP"
      match getField parsed "type" with
      | some (Json.str "offer") =>
          let r := createAnswerFromRemote s parsed
          if r.2 then (appendLog r.1.1 "Invalid remote SDP", r.1.2)
          else r.1
      | _ =>
          let r := createPeerConnectionWithStatus s
          match r.1.pc with
          | none => (appendLog r.1 "Invalid remote SDP", r.2)
          | some p =>
              match trySetRemoteDescription p parsed with
              | none => (appendLog r.1 "Invalid remote SDP", r.2)
              | some p2 =>
                  let s2 := appendLog { r.1 with pc := some p2 } "Remote answer applied"
                  if s2.isInCall then
                    ({ (appendLog s2 "Call SDP exchange completed") with
                       callStatus := CallStatus.active }, r.2)
                  else (s2, r.2)

/-- Value of `pc.iceGatheringState`. -/
inductive IceGatheringState where
  | new : IceGatheringState
  | gathering : IceGatheringState
  | complete : IceGatheringState
deriving DecidableEq, Repr

/-- State of one waitForIceGatheringComplete call: whether its `check`
listener is still registered and how many times its promise resolution has
been invoked. -/
structure WaitState where
  listenerActive : Bool
  resolveCount : Nat
deriving DecidableEq, Repr

/-- Embeds the entry of waitForIceGatheringComplete (App.tsx lines 19-31):
an immediate resolve when gathering is already complete, otherwise a
registered listener. -/
def waitForIceInit (st : IceGatheringState) : WaitState :=
  if st = IceGatheringState.complete then ⟨false, 1⟩ else ⟨true, 0⟩

/-- Embeds the `check` listener body (App.tsx lines 23-28), run at an
icegatheringstatechange event with the connection in state `current`:
when complete, the listener removes itself and resolves. -/
def waitForIceCheck (w : WaitState) (current : IceGatheringState) : WaitState :=
  if w.listenerActive ∧ current = IceGatheringState.complete then ⟨false, w.resolveCount + 1⟩
  else w

/-- The finalized local description published by createOffer, as an opaque
marker. -/
def finalDescription : String := "finalized-local-description"

/-- The awaiting tail of createOffer (App.tsx lines 488-492): the gathering
wait plus the localSDP signal it gates. -/
structure OfferFlow where
  wait : WaitState
  localSDP : String
deriving DecidableEq, Repr

/-- Embeds createOffer reaching its waitForIceGatheringComplete await with
the connection in gathering state `init`: the description is published
immediately iff the wait resolved immediately. -/
def offerFlowInit (init : IceGatheringState) : OfferFlow :=
  let w := waitForIceInit init
  ⟨w, if 0 < w.resolveCount then finalDescription else ""⟩

/-- One icegatheringstatechange event during createOffer's wait: the
continuation after the await (setLocalSDP) runs exactly when the wait
resolves at this event. -/
def offerFlowStep (f : OfferFlow) (ev : IceGatheringState) : OfferFlow :=
  let w2 := waitForIceCheck f.wait ev
  ⟨w2, if f.wait.resolveCount < w2.resolveCount then finalDescription else f.localSDP⟩

/-- The createOffer wait observed after a sequence of gathering events. -/
def runOfferFlow (init : IceGatheringState) (events : List IceGatheringState) : OfferFlow :=
  events.foldl offerFlowStep (offerFlowInit init)

/-- The component state at mount: the createSignal initial values, with the
module-level pc and dataChannel handles absent. -/
def initialState : AppState :=
  { localSDP := ""
    remoteSDP := ""
    showSDPModal := true
    log := []
    connectionStatus := ConnStatus.disconnected
    showChatWindow := false
    chatMessages := []
    messageInput := ""
    localStream := none
    remoteStream := none
    isInCall := false
    callStatus := CallStatus.idle
    incomingCall := none
    isAudioMuted := false
    isVideoMuted := false
    pc := none
    dataChannel := none }

example : onDataMessage initialState "null" =
    ({ (appendLog initialState "Received message") with
       chatMessages := [⟨some (Json.str "null"), false⟩] }, []) := by rfl

example : applyRemoteSDP { initialState with remoteSDP := "null" } =
    (appendLog { initialState with remoteSDP := "null" } "Invalid remote SDP", []) := by rfl

/-- Whether a parsed frame's `type` property is one of the six call-signaling
tags that onDataMessage dispatches away from the chat surface. -/
def isCallTag (t : Option Json) : Bool :=
  match t with
  | some (Json.str v) =>
      v == "call-request" || v == "call-accept" || v == "call-decline" ||
      v == "call-offer" || v == "call-answer" || v == "call-end"
  | _ => false

/-- C1 (counterexample): the frame `\x7b"type":"bogus"\x7d` is valid JSON with an
unrecognized tag; the chat entry it produces carries the (absent) `message`
property — undefined — not the raw frame text verbatim, refuting the claim
that such frames are delivered as raw chat text verbatim. -/
theorem c1_counterexample :
    (onDataMessage initialState "\x7b\"type\":\"bogus\"\x7d").1.chatMessages =
      [⟨none, false⟩]
    ∧ (onDataMessage initialState "\x7b\"type\":\"bogus\"\x7d").1.chatMessages ≠
      [⟨some (Json.str "\x7b\"type\":\"bogus\"\x7d"), false⟩] := by
  have h : (onDataMessage initialState "\x7b\"type\":\"bogus\"\x7d").1.chatMessages =
      [(⟨none, false⟩ : ChatEntry)] := rfl
  refine ⟨h, ?_⟩
  rw [h]
  simp

lemma dispatchFrame_default (s : AppState) (j : Json)
    (ht : isCallTag (getField j "type") = false) :
    dispatchFrame s j =
      ({ (appendLog s "Received chat message") with
         chatMessages := s.chatMessages ++ [⟨getField j "message", false⟩] }, []) := by
  simp only [dispatchFrame]
  split
  case _ heq => rw [heq] at ht; simp [isCallTag] at ht
  case _ heq => rw [heq] at ht; simp [isCallTag] at ht
  case _ heq => rw [heq] at ht; simp [isCallTag] at ht
  case _ heq => rw [heq] at ht; simp [isCallTag] at ht
  case _ heq => rw [heq] at ht; simp [isCallTag] at ht
  case _ heq => rw [heq] at ht; simp [isCallTag] at ht
  case _ => rfl

/-- C1 (amended): a frame that JSON.parse rejects — and equally a frame
decoding to JSON null, whose tag access throws and is caught — is appended
to the chat surface verbatim as an inbound entry; a frame that parses to any
other value whose tag is not one of the six call-signaling tags is treated
like a chat envelope: the value of its `message` property (undefined when
absent) is appended.  In both cases exactly one entry is appended — never
dropped — and the handler is total, raising nothing. -/
theorem c1_fallback_delivery (s : AppState) (msg : String) :
    ((jsonParse msg = none ∨ jsonParse msg = some Json.null) →
      onDataMessage s msg =
        ({ (appendLog s "Received message") with
           chatMessages := s.chatMessages ++ [⟨some (Json.str msg), false⟩] }, []))
    ∧ (∀ j, jsonParse msg = some j → j ≠ Json.null →
        isCallTag (getField j "type") = false →
        onDataMessage s msg =
          ({ (appendLog s "Received chat message") with
             chatMessages := s.chatMessages ++ [⟨getField j "message", false⟩] }, [])) := by
  constructor
  · rintro (h | h) <;> simp only [onDataMessage, h]
  · intro j hj hnull ht
    have hd := dispatchFrame_default s j ht
    cases j with
    | null => exact absurd rfl hnull
    | bool b => simpa only [onDataMessage, hj] using hd
    | num n => simpa only [onDataMessage, hj] using hd
    | str t => simpa only [onDataMessage, hj] using hd
    | arr xs => simpa only [onDataMessage, hj] using hd
    | obj fs => simpa only [onDataMessage, hj] using hd

/-- C1 (witness): a plain-text frame is not valid JSON and is delivered to
the chat surface verbatim. -/
theorem c1_fallback_delivery_witness :
    onDataMessage initialState "plain text" =
      ({ (appendLog initialState "Received message") with
         chatMessages := [⟨some (Json.str "plain text"), false⟩] }, []) :=
  (c1_fallback_delivery initialState "plain text").1 (Or.inl rfl)

/-- C2 (counterexample): with a channel already captured, a second inbound
channel event replaces it — the active channel afterwards is the second one,
not the first — refuting the claim that the first captured channel is kept
and duplicates are ignored or closed. -/
theorem c2_counterexample :
    (onIncomingChannel
        (onIncomingChannel initialState ⟨1, ChannelState.open⟩).1
        ⟨2, ChannelState.open⟩).1.dataChannel = some ⟨2, ChannelState.open⟩
    ∧ (onIncomingChannel
        (onIncomingChannel initialState ⟨1, ChannelState.open⟩).1
        ⟨2, ChannelState.open⟩).1.dataChannel ≠ some ⟨1, ChannelState.open⟩ := by
  exact ⟨rfl, by decide⟩

/-- C2 (amended): every inbound channel event unconditionally installs the
received channel as the active control channel, replacing any existing one;
so at any time at most one channel handle is referenced — the most recently
received — but the first is not retained against later duplicates. -/
theorem c2_channel_replacement (s : AppState) (ch : Channel) :
    (onIncomingChannel s ch).1.dataChannel = some ch
    ∧ (onIncomingChannel s ch).1.sansLog = { s.sansLog with dataChannel := some ch }
    ∧ (onIncomingChannel s ch).2 = [] := by
  refine ⟨rfl, ?_, rfl⟩
  simp [onIncomingChannel, AppState.sansLog, appendLog]

/-- A state in the `calling` phase while a local capture is held. -/
def callingWithMedia : AppState :=
  { initialState with callStatus := CallStatus.calling, localStream := some [⟨0⟩] }

/-- C3 (counterexample): in state `calling` with a held local stream,
receiving call-decline returns CallState to idle but performs no track stop
and leaves the stream in place, refuting the claim that acquired media is
released (stopped) within the same step. -/
theorem c3_counterexample :
    (handleCallDecline callingWithMedia).1.callStatus = CallStatus.idle
    ∧ (handleCallDecline callingWithMedia).1.localStream = some [⟨0⟩]
    ∧ (handleCallDecline callingWithMedia).2 = [] :=
  ⟨rfl, rfl, rfl⟩

/-- C3 (amended): receiving call-decline (in any state, including `calling`)
returns CallState to idle and clears the in-call flag, but does not stop or
release local media: the local stream signal is left unchanged and no track
stop is performed in the step. -/
theorem c3_decline_keeps_media (s : AppState) :
    (handleCallDecline s).1.callStatus = CallStatus.idle
    ∧ (handleCallDecline s).1.isInCall = false
    ∧ (handleCallDecline s).1.localStream = s.localStream
    ∧ (handleCallDecline s).2 = [] :=
  ⟨rfl, rfl, rfl, rfl⟩

/-- The transformation endCall's removeTrack loop applies to a peer
connection's sender list. -/
def scrubSenders (p : PeerConn) : PeerConn :=
  { p with senders := p.senders.map removeIfTracked }

lemma removeIfTracked_idem (sd : Sender) :
    removeIfTracked (removeIfTracked sd) = removeIfTracked sd := by
  unfold removeIfTracked
  by_cases h : sd.track.isSome <;> simp [h]

lemma map_removeIfTracked_idem (l : List Sender) :
    (l.map removeIfTracked).map removeIfTracked = l.map removeIfTracked := by
  induction l with
  | nil => rfl
  | cons a l ih => simp [removeIfTracked_idem, ih]

lemma filter_map_removeIfTracked (l : List Sender) :
    (l.map removeIfTracked).filter (fun sd => sd.track.isSome) = [] := by
  induction l with
  | nil => rfl
  | cons a l ih =>
      simp only [List.map_cons, List.filter_cons]
      have h : (removeIfTracked a).track.isSome = false := by
        unfold removeIfTracked
        by_cases h : a.track.isSome <;> simp [h]
      simp [h, ih]

/-- Characterization of the state after endCall, up to the log. -/
lemma endCall_state (s : AppState) :
    (endCall s).1.sansLog =
      { s.sansLog with
        localStream := none
        remoteStream := none
        isInCall := false
        callStatus := CallStatus.idle
        incomingCall := none
        isAudioMuted := false
        isVideoMuted := false
        pc := s.pc.map scrubSenders } := by
  unfold endCall sendCallMessage
  cases s.isInCall <;> cases hls : s.localStream <;> cases hpc : s.pc <;>
    simp only [hls, hpc, appendLog, AppState.sansLog] <;>
    (try split_ifs) <;>
    simp [hls, hpc, appendLog, AppState.sansLog, scrubSenders]

lemma scrubSenders_idem (p : PeerConn) :
    scrubSenders (scrubSenders p) = scrubSenders p := by
  simp [scrubSenders, map_removeIfTracked_idem]
  exact fun a _ => removeIfTracked_idem a

lemma map_scrubSenders_idem (o : Option PeerConn) :
    (o.map scrubSenders).map scrubSenders = o.map scrubSenders := by
  cases o <;> simp [scrubSenders_idem]

/-- The effects of endCall in a state with no call, no stream and no tracked
senders: nothing is sent, stopped or removed. -/
lemma endCall_effects_nil (s : AppState) (h1 : s.isInCall = false)
    (h2 : s.localStream = none)
    (h3 : ∀ p, s.pc = some p → p.senders.filter (fun sd => sd.track.isSome) = []) :
    (endCall s).2 = [] := by
  unfold endCall
  cases hpc : s.pc with
  | none => simp [h1, h2, hpc, appendLog]
  | some p => simp [h1, h2, hpc, appendLog, h3 p hpc]

/-- C4: ending a call always lands CallState at idle (so an end-call issued
while already idle leaves it at idle); re-running endCall after one endCall
— the duplicate call-end after reaching idle — changes nothing but the log
and performs no effects: no message sent, no track stopped, no sender
removed, so no media teardown happens twice. -/
theorem c4_end_call_idempotent (s : AppState) :
    (endCall s).1.callStatus = CallStatus.idle
    ∧ (endCall (endCall s).1).1.sansLog = (endCall s).1.sansLog
    ∧ (endCall (endCall s).1).2 = [] := by
  have h := endCall_state s
  have hstat : (endCall s).1.callStatus = CallStatus.idle := by
    have := congrArg AppState.callStatus h
    simpa [AppState.sansLog] using this
  have hin : (endCall s).1.isInCall = false := by
    have := congrArg AppState.isInCall h
    simpa [AppState.sansLog] using this
  have hls : (endCall s).1.localStream = none := by
    have := congrArg AppState.localStream h
    simpa [AppState.sansLog] using this
  have hpc : (endCall s).1.pc = s.pc.map scrubSenders := by
    have := congrArg AppState.pc h
    simpa [AppState.sansLog] using this
  refine ⟨hstat, ?_, ?_⟩
  · have h2 := endCall_state (endCall s).1
    rw [hpc, map_scrubSenders_idem, h] at h2
    rw [h2, h]
  · refine endCall_effects_nil (endCall s).1 hin hls ?_
    intro p hp
    rw [hpc] at hp
    cases hspc : s.pc with
    | none => rw [hspc] at hp; exact absurd hp (by simp)
    | some q =>
        rw [hspc] at hp
        have hq : scrubSenders q = p := by simpa using hp
        rw [← hq]
        simpa [scrubSenders] using filter_map_removeIfTracked q.senders

/-- A state that is connected and idle but whose control channel has not yet
reached readyState open. -/
def connectedIdleChanConnecting : AppState :=
  { initialState with
    connectionStatus := ConnStatus.connected
    showChatWindow := true
    dataChannel := some ⟨7, ChannelState.connecting⟩ }

/-- C5 (counterexample): in a state with TransportConnectivityState
connected and CallState idle but the control channel not yet open, startCall
does transition idle→calling yet sends no call-request frame, refuting the
claimed equivalence that the transition and the send happen iff connected
and idle. -/
theorem c5_counterexample :
    connectedIdleChanConnecting.connectionStatus = ConnStatus.connected
    ∧ connectedIdleChanConnecting.callStatus = CallStatus.idle
    ∧ (startCall connectedIdleChanConnecting).1.callStatus = CallStatus.calling
    ∧ sentFrames (startCall connectedIdleChanConnecting).2 = [] :=
  ⟨rfl, rfl, rfl, rfl⟩

/-- C5 (amended): startCall transitions idle→calling iff the connection
status is connected, the call status is idle and the in-call flag is clear;
the call-request frame actually goes out iff additionally the control
channel is open (otherwise the transition still happens but the send is
skipped with a log line); when the guard fails, nothing but the log
changes and nothing is sent. -/
theorem c5_start_call (s : AppState) :
    ((s.callStatus = CallStatus.idle ∧ (startCall s).1.callStatus = CallStatus.calling) ↔
      (s.connectionStatus = ConnStatus.connected ∧ s.isInCall = false ∧
        s.callStatus = CallStatus.idle))
    ∧ (sentFrames (startCall s).2 = [CallMessage.callRequest "me"] ↔
      (s.connectionStatus = ConnStatus.connected ∧ s.isInCall = false ∧
        s.callStatus = CallStatus.idle ∧ channelOpen s.dataChannel = true))
    ∧ (¬ (s.connectionStatus = ConnStatus.connected ∧ s.isInCall = false ∧
          s.callStatus = CallStatus.idle) →
        ((startCall s).1.sansLog = s.sansLog ∧ (startCall s).2 = [])) := by
  by_cases hc : s.connectionStatus = ConnStatus.connected
  · cases hio : s.isInCall with
    | true =>
        have hred1 : (startCall s).1.callStatus = s.callStatus := by
          simp [startCall, hc, hio, appendLog]
        have hred2 : (startCall s).2 = [] := by
          simp [startCall, hc, hio]
        have hred3 : (startCall s).1.sansLog = s.sansLog := by
          simp [startCall, hc, hio, appendLog, AppState.sansLog]
        refine ⟨?_, ?_, fun _ => ⟨hred3, hred2⟩⟩
        · rw [hred1]
          constructor
          · rintro ⟨h1, h2⟩
            rw [h1] at h2
            exact absurd h2 (by simp)
          · rintro ⟨_, h2, _⟩
            exact absurd h2 (by simp)
        · constructor
          · intro h
            rw [hred2] at h
            simp [sentFrames] at h
          · rintro ⟨_, h2, _, _⟩
            exact absurd h2 (by simp)
    | false =>
        by_cases hs : s.callStatus = CallStatus.idle
        · cases ho : channelOpen s.dataChannel with
          | true =>
              have hr1 : (startCall s).1.callStatus = CallStatus.calling := by
                simp [startCall, hc, hio, hs, sendCallMessage, ho, appendLog]
              have hr2 : (startCall s).2 = [Effect.sentFrame (CallMessage.callRequest "me")] := by
                simp [startCall, hc, hio, hs, sendCallMessage, ho, appendLog]
              refine ⟨?_, ?_, fun h => absurd ⟨hc, rfl, hs⟩ h⟩
              · exact ⟨fun _ => ⟨hc, rfl, hs⟩, fun _ => ⟨hs, hr1⟩⟩
              · constructor
                · intro _
                  exact ⟨hc, rfl, hs, rfl⟩
                · intro _
                  rw [hr2]
                  simp [sentFrames]
          | false =>
              have hr1 : (startCall s).1.callStatus = CallStatus.calling := by
                simp [startCall, hc, hio, hs, sendCallMessage, ho, appendLog]
              have hr2 : (startCall s).2 = [] := by
                simp [startCall, hc, hio, hs, sendCallMessage, ho, appendLog]
              refine ⟨?_, ?_, fun h => absurd ⟨hc, rfl, hs⟩ h⟩
              · exact ⟨fun _ => ⟨hc, rfl, hs⟩, fun _ => ⟨hs, hr1⟩⟩
              · constructor
                · intro h
                  rw [hr2] at h
                  simp [sentFrames] at h
                · rintro ⟨_, _, _, h4⟩
                  exact absurd h4 (by simp)
        · have hred1 : (startCall s).1.callStatus = s.callStatus := by
            simp [startCall, hc, hio, hs, appendLog]
          have hred2 : (startCall s).2 = [] := by
            simp [startCall, hc, hio, hs]
          have hred3 : (startCall s).1.sansLog = s.sansLog := by
            simp [startCall, hc, hio, hs, appendLog, AppState.sansLog]
          refine ⟨?_, ?_, fun _ => ⟨hred3, hred2⟩⟩
          · constructor
            · rintro ⟨h1, _⟩
              exact absurd h1 hs
            · rintro ⟨_, _, h3⟩
              exact absurd h3 hs
          · constructor
            · intro h
              rw [hred2] at h
              simp [sentFrames] at h
            · rintro ⟨_, _, h3, _⟩
              exact absurd h3 hs
  · have hred1 : (startCall s).1.callStatus = s.callStatus := by
      simp [startCall, hc, appendLog]
    have hred2 : (startCall s).2 = [] := by
      simp [startCall, hc]
    have hred3 : (startCall s).1.sansLog = s.sansLog := by
      simp [startCall, hc, appendLog, AppState.sansLog]
    refine ⟨?_, ?_, fun _ => ⟨hred3, hred2⟩⟩
    · rw [hred1]
      constructor
      · rintro ⟨h1, h2⟩
        rw [h1] at h2
        exact absurd h2 (by simp)
      · rintro ⟨h1, _, _⟩
        exact absurd h1 hc
    · constructor
      · intro h
        rw [hred2] at h
        simp [sentFrames] at h
      · rintro ⟨h1, _, _, _⟩
        exact absurd h1 hc

/-- C5 (witness): in the initial, disconnected state startCall is a no-op
apart from the log and sends nothing. -/
theorem c5_start_call_witness :
    (startCall initialState).1.sansLog = initialState.sansLog
    ∧ (startCall initialState).2 = [] :=
  (c5_start_call initialState).2.2 (by decide)

lemma offerFlow_frozen (f : OfferFlow) (hf : f.wait.listenerActive = false)
    (evs : List IceGatheringState) : evs.foldl offerFlowStep f = f := by
  induction evs with
  | nil => rfl
  | cons e rest ih =>
      have hstep : offerFlowStep f e = f := by
        simp [offerFlowStep, waitForIceCheck, hf]
      rw [List.foldl_cons, hstep, ih]

lemma offerFlow_active (evs : List IceGatheringState) :
    evs.foldl offerFlowStep ⟨⟨true, 0⟩, ""⟩ =
      (if IceGatheringState.complete ∈ evs then ⟨⟨false, 1⟩, finalDescription⟩
        else ⟨⟨true, 0⟩, ""⟩) := by
  induction evs with
  | nil => simp
  | cons e rest ih =>
      by_cases he : e = IceGatheringState.complete
      · subst he
        have hstep : offerFlowStep ⟨⟨true, 0⟩, ""⟩ IceGatheringState.complete =
            ⟨⟨false, 1⟩, finalDescription⟩ := by
          simp [offerFlowStep, waitForIceCheck]
        rw [List.foldl_cons, hstep, offerFlow_frozen _ rfl rest]
        simp
      · have hstep : offerFlowStep ⟨⟨true, 0⟩, ""⟩ e = ⟨⟨true, 0⟩, ""⟩ := by
          simp [offerFlowStep, waitForIceCheck, he]
        rw [List.foldl_cons, hstep, ih]
        simp [Ne.symm he]

/-- C6: for every initial gathering state and every sequence of gathering
events, the wait of createOffer resolves exactly once when gathering reaches
complete (immediately when it already is complete) and zero times otherwise;
and the local description is published — localSDP moves from empty to the
finalized description — exactly when completion has been reached.  Since
this holds for every event prefix, the description is never exposed while
gathering is still in progress. -/
theorem c6_offer_waits_for_gathering (init : IceGatheringState)
    (events : List IceGatheringState) :
    (runOfferFlow init events).wait.resolveCount =
      (if init = IceGatheringState.complete ∨ IceGatheringState.complete ∈ events
        then 1 else 0)
    ∧ (runOfferFlow init events).localSDP =
      (if init = IceGatheringState.complete ∨ IceGatheringState.complete ∈ events
        then finalDescription else "") := by
  by_cases hi : init = IceGatheringState.complete
  · have hstart : offerFlowInit init = ⟨⟨false, 1⟩, finalDescription⟩ := by
      simp [offerFlowInit, waitForIceInit, hi]
    unfold runOfferFlow
    rw [hstart, offerFlow_frozen _ rfl]
    simp [hi]
  · have hstart : offerFlowInit init = ⟨⟨true, 0⟩, ""⟩ := by
      simp [offerFlowInit, waitForIceInit, hi]
    unfold runOfferFlow
    rw [hstart, offerFlow_active]
    by_cases hm : IceGatheringState.complete ∈ events <;> simp [hi, hm]

/-- C7 (counterexample): processing a second connected event does not
produce the same state — the diagnostic log (an exposed interface) gains two
further entries — refuting the claim that a repeated connected event
produces the same state with no duplicate side effects. -/
theorem c7_counterexample :
    (connectionStateEvent (connectionStateEvent initialState PCConnState.connected).1
        PCConnState.connected).1
      ≠ (connectionStateEvent initialState PCConnState.connected).1 := by
  intro h
  have h2 := congrArg AppState.log h
  have h3 := congrArg List.length h2
  have e1 : (connectionStateEvent (connectionStateEvent initialState PCConnState.connected).1
      PCConnState.connected).1.log.length = 4 := rfl
  have e2 : (connectionStateEvent initialState PCConnState.connected).1.log.length = 2 := rfl
  rw [e1, e2] at h3
  exact absurd h3 (by decide)

/-- C7 (amended): every connected transition resets the single-use local and
remote description buffers to empty and marks the status connected, and the
handler is idempotent on every component of the state except the diagnostic
log: a repeated connected event reproduces the same state up to the log,
performs no effects, but appends two further log lines each time. -/
theorem c7_connected_resets (s : AppState) :
    ((connectionStateEvent s PCConnState.connected).1.localSDP = ""
      ∧ (connectionStateEvent s PCConnState.connected).1.remoteSDP = ""
      ∧ (connectionStateEvent s PCConnState.connected).1.connectionStatus = ConnStatus.connected)
    ∧ (connectionStateEvent (connectionStateEvent s PCConnState.connected).1
        PCConnState.connected).1.sansLog
        = (connectionStateEvent s PCConnState.connected).1.sansLog
    ∧ (connectionStateEvent (connectionStateEvent s PCConnState.connected).1
        PCConnState.connected).1.log
        = (connectionStateEvent s PCConnState.connected).1.log
          ++ ["Connection state changed", "Connection established"]
    ∧ (connectionStateEvent (connectionStateEvent s PCConnState.connected).1
        PCConnState.connected).2 = [] := by
  refine ⟨⟨?_, ?_, ?_⟩, ?_, ?_, ?_⟩ <;>
    simp [connectionStateEvent, appendLog, AppState.sansLog] <;>
    cases s.pc <;> simp

/-- A state in which a remote answer is pasted while no peer connection and
no outstanding offer exist. -/
def answerNoOfferState : AppState :=
  { initialState with remoteSDP := "\x7b\"type\":\"answer\",\"sdp\":\"x\"\x7d" }

/-- C8 (counterexample): applying an answer with no outstanding offer (no
peer connection at all) is reported as an error, but it is not true that all
existing state is preserved: a fresh peer connection is created and
installed before the failing platform call, so the state does change. -/
theorem c8_counterexample :
    answerNoOfferState.pc = none
    ∧ (applyRemoteSDP answerNoOfferState).1.pc ≠ none
    ∧ "Invalid remote SDP" ∈ (applyRemoteSDP answerNoOfferState).1.log := by
  have hpc : (applyRemoteSDP answerNoOfferState).1.pc =
      some ⟨PCConnState.new, SigState.stable, []⟩ := rfl
  have hlog : (applyRemoteSDP answerNoOfferState).1.log =
      ["Processing remote SDP", "RTCPeerConnection created", "Invalid remote SDP"] := rfl
  refine ⟨rfl, ?_, ?_⟩
  · rw [hpc]
    simp
  · rw [hlog]
    simp

lemma getField_some_obj (j : Json) (k : String) (v : Json)
    (h : getField j k = some v) : ∃ fs, j = Json.obj fs := by
  cases j with
  | obj fs => exact ⟨fs, rfl⟩
  | null => simp [getField] at h
  | bool b => simp [getField] at h
  | num n => simp [getField] at h
  | str t => simp [getField] at h
  | arr xs => simp [getField] at h

/-- C8 (amended): applyRemoteSDP dispatches on the parsed type.  Unparseable
input — and a description decoding to JSON null, whose type access throws
and is caught — is reported (logged) with no state change at all.  An offer
applied to a fresh session starts an inbound negotiation that produces and
publishes an answer description.  An answer applied with no outstanding
offer is reported as an error and the negotiation step aborted with the
call and negotiation state preserved: fully preserved up to the log when a
connection already exists, while a peer connection is created and installed
when none existed before the failing application is attempted. -/
theorem c8_apply_remote_sdp (s : AppState) :
    ((jsonParse s.remoteSDP = none ∨ jsonParse s.remoteSDP = some Json.null) →
      applyRemoteSDP s = (appendLog s "Invalid remote SDP", []))
    ∧ (∀ j t, jsonParse s.remoteSDP = some j →
        getField j "type" = some (Json.str "offer") →
        getField j "sdp" = some (Json.str t) →
        s.pc = none →
        ((applyRemoteSDP s).1.localSDP = answerDescription
          ∧ (applyRemoteSDP s).1.showSDPModal = true
          ∧ (applyRemoteSDP s).1.pc = some ⟨PCConnState.new, SigState.stable, []⟩))
    ∧ (∀ j, jsonParse s.remoteSDP = some j →
        getField j "type" = some (Json.str "answer") →
        s.pc = none →
        ((applyRemoteSDP s).1.pc = some ⟨PCConnState.new, SigState.stable, []⟩
          ∧ "Invalid remote SDP" ∈ (applyRemoteSDP s).1.log
          ∧ (applyRemoteSDP s).1.callStatus = s.callStatus
          ∧ (applyRemoteSDP s).1.localSDP = s.localSDP
          ∧ (applyRemoteSDP s).1.chatMessages = s.chatMessages
          ∧ (applyRemoteSDP s).1.localStream = s.localStream
          ∧ (applyRemoteSDP s).1.dataChannel = s.dataChannel))
    ∧ (∀ j p, jsonParse s.remoteSDP = some j →
        getField j "type" = some (Json.str "answer") →
        s.pc = some p →
        p.signalingState ≠ SigState.haveLocalOffer →
        ((applyRemoteSDP s).1.sansLog = s.sansLog
          ∧ "Invalid remote SDP" ∈ (applyRemoteSDP s).1.log
          ∧ (applyRemoteSDP s).2 = [])) := by
  refine ⟨?_, ?_, ?_, ?_⟩
  · rintro (h | h) <;> simp [applyRemoteSDP, h]
  · intro j t hj ht hsdp hpc
    obtain ⟨fs, rfl⟩ := getField_some_obj j "type" _ ht
    simp only [applyRemoteSDP, hj, ht]
    simp only [createAnswerFromRemote, createPeerConnectionWithStatus, appendLog, hpc, hsdp]
    simp only [trySetRemoteDescription, ht]
    split_ifs <;> simp
  · intro j hj ht hpc
    obtain ⟨fs, rfl⟩ := getField_some_obj j "type" _ ht
    simp only [applyRemoteSDP, hj, ht]
    simp only [createPeerConnectionWithStatus, appendLog, hpc]
    simp only [trySetRemoteDescription, ht]
    simp
  · intro j p hj ht hpc hsig
    obtain ⟨fs, rfl⟩ := getField_some_obj j "type" _ ht
    simp only [applyRemoteSDP, hj, ht]
    simp only [createPeerConnectionWithStatus, appendLog, hpc]
    simp only [trySetRemoteDescription, ht]
    refine ⟨?_, ?_, ?_⟩ <;> simp [hsig, appendLog, AppState.sansLog]
    exact hpc.symm

/-- A state with a pasted offer and no existing session. -/
def offerPastedState : AppState :=
  { initialState with remoteSDP := "\x7b\"type\":\"offer\",\"sdp\":\"v=0\"\x7d" }

/-- C8 (witness): a pasted remote offer on a fresh session produces and
publishes an answer description. -/
theorem c8_apply_remote_sdp_witness :
    (applyRemoteSDP offerPastedState).1.localSDP = answerDescription
    ∧ (applyRemoteSDP offerPastedState).1.showSDPModal = true
    ∧ (applyRemoteSDP offerPastedState).1.pc = some ⟨PCConnState.new, SigState.stable, []⟩ :=
  (c8_apply_remote_sdp offerPastedState).2.1
    (Json.obj [("type", Json.str "offer"), ("sdp", Json.str "v=0")]) "v=0"
    rfl rfl rfl rfl

/-- Whether an effect belongs to tearing a call down: the implicit call-end
frame, a track stop or a sender removal.  No reconnect, renegotiation or
connection-creating effect qualifies. -/
def teardownOnly (e : Effect) : Bool :=
  match e with
  | Effect.sentFrame (CallMessage.callEnd _) => true
  | Effect.trackStop _ => true
  | Effect.senderRemove => true
  | _ => false

/-- Characterization of the effect list endCall produces. -/
lemma endCall_effects_char (s : AppState) :
    (endCall s).2 =
      (if s.isInCall = true ∧ channelOpen s.dataChannel = true
        then [Effect.sentFrame (CallMessage.callEnd "me")] else [])
      ++ (match s.localStream with
          | some tracks => tracks.map (fun t => Effect.trackStop t.id)
          | none => [])
      ++ (match s.pc with
          | some p =>
              (p.senders.filter (fun sd => sd.track.isSome)).map
                (fun _ => Effect.senderRemove)
          | none => []) := by
  unfold endCall sendCallMessage
  cases hin : s.isInCall <;> cases hls : s.localStream <;> cases hpc : s.pc <;>
    simp only [hin, hls, hpc, appendLog] <;>
    (try split_ifs) <;>
    simp_all

lemma endCall_effects_teardown (s : AppState) :
    ∀ e ∈ (endCall s).2, teardownOnly e = true := by
  rw [endCall_effects_char]
  intro e he
  rcases List.mem_append.1 he with h12 | h3
  · rcases List.mem_append.1 h12 with h1 | h2
    · by_cases hcc : s.isInCall = true ∧ channelOpen s.dataChannel = true
      · rw [if_pos hcc] at h1
        simp at h1
        rw [h1]
        rfl
      · rw [if_neg hcc] at h1
        simp at h1
    · cases hls : s.localStream with
      | none => rw [hls] at h2; simp at h2
      | some tracks =>
          rw [hls] at h2
          simp only [List.mem_map] at h2
          obtain ⟨a, _, rfl⟩ := h2
          rfl
  · cases hpc : s.pc with
    | none => rw [hpc] at h3; simp at h3
    | some p =>
        rw [hpc] at h3
        simp only [List.mem_map] at h3
        obtain ⟨a, _, rfl⟩ := h3
        rfl

lemma endCall_basic (s : AppState) :
    (endCall s).1.callStatus = CallStatus.idle
    ∧ (endCall s).1.isInCall = false
    ∧ (endCall s).1.connectionStatus = s.connectionStatus := by
  have h := endCall_state s
  have h1 := congrArg AppState.callStatus h
  have h2 := congrArg AppState.isInCall h
  have h3 := congrArg AppState.connectionStatus h
  exact ⟨by simpa [AppState.sansLog] using h1, by simpa [AppState.sansLog] using h2,
    by simpa [AppState.sansLog] using h3⟩

/-- C9: when the transport reports disconnected or failed while a call is
active (the in-call flag is set), the handler marks connectivity
disconnected and forces the call to terminate through endCall — the
implicit call-end — landing CallState at idle with the in-call flag
cleared; and every effect of the step is call teardown (at most the
call-end frame, track stops and sender removals): no reconnect, no new
connection, no renegotiation is started for the session. -/
theorem c9_transport_failure (s : AppState) (st : PCConnState)
    (hst : st = PCConnState.disconnected ∨ st = PCConnState.failed)
    (hcall : s.isInCall = true) :
    (connectionStateEvent s st).1.connectionStatus = ConnStatus.disconnected
    ∧ (connectionStateEvent s st).1.callStatus = CallStatus.idle
    ∧ (connectionStateEvent s st).1.isInCall = false
    ∧ ∀ e ∈ (connectionStateEvent s st).2, teardownOnly e = true := by
  have hne : ¬ st = PCConnState.connected := by
    rcases hst with h | h <;> simp [h]
  have hred : connectionStateEvent s st =
      endCall { s with
        pc := s.pc.map (fun p => { p with connectionState := st })
        log := s.log ++ ["Connection state changed"]
        connectionStatus := ConnStatus.disconnected } := by
    simp [connectionStateEvent, hne, hst, hcall, appendLog]
  rw [hred]
  have hb := endCall_basic { s with
    pc := s.pc.map (fun p => { p with connectionState := st })
    log := s.log ++ ["Connection state changed"]
    connectionStatus := ConnStatus.disconnected }
  exact ⟨hb.2.2, hb.1, hb.2.1, endCall_effects_teardown _⟩

/-- A connected state with an active call and live media. -/
def inCallState : AppState :=
  { initialState with
    connectionStatus := ConnStatus.connected
    showChatWindow := true
    isInCall := true
    callStatus := CallStatus.active
    localStream := some [⟨0⟩]
    remoteStream := some 0
    pc := some ⟨PCConnState.connected, SigState.stable, [⟨some 0⟩]⟩
    dataChannel := some ⟨1, ChannelState.open⟩ }

/-- C9 (witness): a failed transport event during an active call marks the
connection disconnected and lands the call at idle. -/
theorem c9_transport_failure_witness :
    (connectionStateEvent inCallState PCConnState.failed).1.connectionStatus =
      ConnStatus.disconnected
    ∧ (connectionStateEvent inCallState PCConnState.failed).1.callStatus = CallStatus.idle
    ∧ (connectionStateEvent inCallState PCConnState.failed).1.isInCall = false :=
  ⟨(c9_transport_failure inCallState PCConnState.failed (Or.inr rfl) rfl).1,
   (c9_transport_failure inCallState PCConnState.failed (Or.inr rfl) rfl).2.1,
   (c9_transport_failure inCallState PCConnState.failed (Or.inr rfl) rfl).2.2.1⟩

lemma sendChatMessage_frames (s : AppState) (t : String) :
    sentFrames (sendChatMessage s t).2 =
      (if channelOpen s.dataChannel then [CallMessage.chat t] else []) := by
  unfold sendChatMessage
  split_ifs <;> rfl

/-- C10: sendMessage on whitespace-only input is a no-op; on input with
non-empty trimmed text it appends the trimmed message to the local chat
marked as own and clears the input field unconditionally, while the frame
goes out on the wire only when the control channel exists and is open —
otherwise the send is skipped, so the message is displayed locally without
ever being transmitted. -/
theorem c10_send_message (s : AppState) :
    (jsTrim s.messageInput = "" → sendMessage s = (s, []))
    ∧ (jsTrim s.messageInput ≠ "" →
        ((sendMessage s).1.chatMessages =
            s.chatMessages ++ [⟨some (Json.str (jsTrim s.messageInput)), true⟩]
          ∧ (sendMessage s).1.messageInput = ""
          ∧ sentFrames (sendMessage s).2 =
              (if channelOpen s.dataChannel then [CallMessage.chat (jsTrim s.messageInput)]
                else []))) := by
  constructor
  · intro h
    simp [sendMessage, h]
  · intro h
    refine ⟨?_, ?_, ?_⟩
    · simp only [sendMessage, sendChatMessage, appendLog]
      split_ifs with h1 h2
      · exact absurd h1 h
      · simp
      · simp
    · simp only [sendMessage, sendChatMessage, appendLog]
      split_ifs with h1 h2
      · exact absurd h1 h
      · simp
      · simp
    · have hred : (sendMessage s).2 = (sendChatMessage { s with
          chatMessages := s.chatMessages ++ [⟨some (Json.str (jsTrim s.messageInput)), true⟩]
          messageInput := "" } (jsTrim s.messageInput)).2 := by
        simp [sendMessage, h]
      rw [hred, sendChatMessage_frames]

/-- A disconnected state with pending typed input and no channel. -/
def typedInputState : AppState :=
  { initialState with messageInput := "  hi  " }

/-- C10 (witness): with no channel at all, a typed message is still appended
locally and the input cleared, while nothing goes out on the wire. -/
theorem c10_send_message_witness :
    (sendMessage typedInputState).1.chatMessages = [⟨some (Json.str "hi"), true⟩]
    ∧ (sendMessage typedInputState).1.messageInput = ""
    ∧ sentFrames (sendMessage typedInputState).2 = [] := by
  have htrim : jsTrim typedInputState.messageInput = "hi" := rfl
  have h := (c10_send_message typedInputState).2 (by rw [htrim]; decide)
  exact ⟨h.1, h.2.1, h.2.2⟩
